import Mathlib

/-
Verification of the validator-production and quorum-membership logic of
`src/masternode_monitor.py` (function `main`, lines 298-451, together with the
helpers `compute_hash`, `get_env_variable`, `set_env_variable` and
`run_command`).

Modelling conventions:
  - Python strings are Lean `String`s; Python's `str.upper`, `str.strip('"')`,
    `str.splitlines`, `str.isdigit`, lexicographic `<` and `int(...)` are
    re-implemented below over `String.data` so that every definition reduces in
    the kernel.
  - `hashlib.sha256(...).hexdigest()` is implemented in full (FIPS 180-4) over
    `Nat` with explicit `% 2^32`.
  - The three persisted settings (`LAST_PRODUCED_BLOCK_HEIGHT`,
    `LAST_SHOULD_PRODUCE_BLOCK_HEIGHT`, `VALIDATOR_QUORUM_HASH`) form the
    record `EnvStore`; `set_env_variable name v` stores `str(v)`.
  - External shell queries (`run_command`) return `Option String`: `none`
    models a failed command (the Python helper returns `None` after catching
    `CalledProcessError`).  Calling `.upper()` on such a `None` raises
    `AttributeError` in Python; the model returns `Except.error`.
  - The `while` loop of the binary search (lines 413-440) is embedded as a
    structurally recursive function with a fuel argument; the wrapper
    `searchLoop` passes fuel equal to the size of the initial closed range,
    which is an upper bound on the number of iterations (the range shrinks at
    every step), and `searchLoopFuel_fuel_irrelevant` proves that any
    sufficient fuel gives the same result, so the embedding computes exactly
    what the unbounded loop computes.
-/

/-! ## SHA-256 (hashlib.sha256(...).hexdigest()) -/

def M32 : Nat := 4294967296

def rotr32 (n x : Nat) : Nat := (x >>> n) ||| ((x <<< (32 - n)) % M32)

def shaCh (x y z : Nat) : Nat := (x &&& y) ^^^ ((x ^^^ (M32 - 1)) &&& z)

def shaMaj (x y z : Nat) : Nat := (x &&& y) ^^^ (x &&& z) ^^^ (y &&& z)

def bsig0 (x : Nat) : Nat := rotr32 2 x ^^^ rotr32 13 x ^^^ rotr32 22 x

def bsig1 (x : Nat) : Nat := rotr32 6 x ^^^ rotr32 11 x ^^^ rotr32 25 x

def ssig0 (x : Nat) : Nat := rotr32 7 x ^^^ rotr32 18 x ^^^ (x >>> 3)

def ssig1 (x : Nat) : Nat := rotr32 17 x ^^^ rotr32 19 x ^^^ (x >>> 10)

def shaK : List Nat :=
  [1116352408, 1899447441, 3049323471, 3921009573, 961987163, 1508970993,
   2453635748, 2870763221, 3624381080, 310598401, 607225278, 1426881987,
   1925078388, 2162078206, 2614888103, 3248222580, 3835390401, 4022224774,
   264347078, 604807628, 770255983, 1249150122, 1555081692, 1996064986,
   2554220882, 2821834349, 2952996808, 3210313671, 3336571891, 3584528711,
   113926993, 338241895, 666307205, 773529912, 1294757372, 1396182291,
   1695183700, 1986661051, 2177026350, 2456956037, 2730485921, 2820302411,
   3259730800, 3345764771, 3516065817, 3600352804, 4094571909, 275423344,
   430227734, 506948616, 659060556, 883997877, 958139571, 1322822218,
   1537002063, 1747873779, 1955562222, 2024104815, 2227730452, 2361852424,
   2428436474, 2756734187, 3204031479, 3329325298]

def shaH0 : List Nat :=
  [1779033703, 3144134277, 1013904242, 2773480762,
   1359893119, 2600822924, 528734635, 1541459225]

def be64 (n : Nat) : List Nat :=
  [(n >>> 56) % 256, (n >>> 48) % 256, (n >>> 40) % 256, (n >>> 32) % 256,
   (n >>> 24) % 256, (n >>> 16) % 256, (n >>> 8) % 256, n % 256]

def shaPad (msg : List Nat) : List Nat :=
  let L := msg.length
  let zeros := (64 - ((L + 9) % 64)) % 64
  msg ++ [128] ++ List.replicate zeros 0 ++ be64 (8 * L)

def toWords : List Nat → List Nat
  | b0 :: b1 :: b2 :: b3 :: rest => (((b0 * 256 + b1) * 256 + b2) * 256 + b3) :: toWords rest
  | _ => []

def toBlocksAux : Nat → List Nat → List (List Nat)
  | 0, _ => []
  | _, [] => []
  | fuel + 1, ws => ws.take 16 :: toBlocksAux fuel (ws.drop 16)

def toBlocks (ws : List Nat) : List (List Nat) := toBlocksAux ws.length ws

def extendW (w : Array Nat) : Array Nat :=
  (List.range 48).foldl (fun w t =>
    let i := t + 16
    w.push ((ssig1 (w.getD (i - 2) 0) + w.getD (i - 7) 0 +
             ssig0 (w.getD (i - 15) 0) + w.getD (i - 16) 0) % M32)) w

def shaRound (st : List Nat) (kw : Nat × Nat) : List Nat :=
  match st with
  | [a, b, c, d, e, f, g, h] =>
    let t1 := (h + bsig1 e + shaCh e f g + kw.1 + kw.2) % M32
    let t2 := (bsig0 a + shaMaj a b c) % M32
    [(t1 + t2) % M32, a, b, c, (d + t1) % M32, e, f, g]
  | _ => st

def shaBlock (h : List Nat) (block : List Nat) : List Nat :=
  let w := extendW block.toArray
  let st := (shaK.zip w.toList).foldl shaRound h
  (h.zip st).map (fun p => (p.1 + p.2) % M32)

def sha256Words (msg : List Nat) : List Nat :=
  (toBlocks (toWords (shaPad msg))).foldl shaBlock shaH0

def hexChar (d : Nat) : Char := if d < 10 then Char.ofNat (48 + d) else Char.ofNat (87 + d)

def wordHex (n : Nat) : List Char :=
  (List.range 8).map (fun i => hexChar ((n >>> (28 - 4 * i)) % 16))

def sha256hex (msg : List Nat) : String :=
  String.mk (((sha256Words msg).map wordHex).flatten)

/-- UTF-8 bytes of a string (all strings handled here are ASCII, for which
code points and UTF-8 bytes agree); models Python `str.encode()`. -/
def strBytes (s : String) : List Nat := s.data.map Char.toNat

/-! ## Python string primitives (kernel-computable re-implementations) -/

/-- Python `str.upper()` (ASCII). -/
def pyUpper (s : String) : String := String.mk (s.data.map Char.toUpper)

def pyLtChars : List Char → List Char → Bool
  | _, [] => false
  | [], _ :: _ => true
  | a :: as, b :: bs =>
    if a.toNat < b.toNat then true
    else if a.toNat = b.toNat then pyLtChars as bs
    else false

/-- Python `a < b` on strings: lexicographic comparison of code points. -/
def pyLt (a b : String) : Bool := pyLtChars a.data b.data

/-- Python `str.isdigit()` restricted to ASCII content. -/
def pyIsDigit (s : String) : Bool := s.data.all Char.isDigit

/-- Python `int(...)` on a string of decimal digits. -/
def digitsToNat (cs : List Char) : Nat := cs.foldl (fun acc c => acc * 10 + (c.toNat - 48)) 0

def splitNlAux : List Char → List Char → List (List Char)
  | [], acc => [acc.reverse]
  | c :: rest, acc =>
    if c = Char.ofNat 10 then acc.reverse :: splitNlAux rest []
    else splitNlAux rest (c :: acc)

/-- Python `str.splitlines()` for a nonempty string whose only line
separators are the newline character and which has no trailing newline
(`run_command` strips trailing whitespace from the captured stdout). -/
def pySplitlines (s : String) : List String := (splitNlAux s.data []).map String.mk

/-- Python `str.strip('"')`: remove leading and trailing double-quote
characters. -/
def pyStripQuotes (s : String) : String :=
  String.mk (((s.data.dropWhile (fun c => c = '"')).reverse.dropWhile (fun c => c = '"')).reverse)

/-- Python `repr` of a list of plain strings (none of the strings handled here
contain quotes, backslashes or non-printable characters), as produced by
`str(value)` for a `list[str]` value. -/
def pyRepr (xs : List String) : String :=
  let q := String.singleton (Char.ofNat 39)
  "[" ++ String.intercalate ", " (xs.map (fun s => q ++ s ++ q)) ++ "]"

/-- `compute_hash` (masternode_monitor.py lines 60-62):
`hashlib.sha256(str(value).encode()).hexdigest()` for a list-of-strings
argument. -/
def compute_hash (xs : List String) : String := sha256hex (strBytes (pyRepr xs))

/-! ## Persisted settings (environment variables backed by `.bashrc`) -/

/-- The three settings the monitor persists across invocations
(`LAST_PRODUCED_BLOCK_HEIGHT`, `LAST_SHOULD_PRODUCE_BLOCK_HEIGHT`,
`VALIDATOR_QUORUM_HASH`), each stored as a raw string or absent. -/
structure EnvStore where
  lastProduced : Option String
  lastShould : Option String
  quorumHash : Option String
deriving DecidableEq

/-- `get_env_variable` (lines 106-109): read a setting and convert it with
`int(value) if value and value.isdigit() else None`.  The empty string is
falsy; any non-digit character (a minus sign, a hex letter) yields `None`. -/
def get_env_variable (v : Option String) : Option Int :=
  match v with
  | none => none
  | some s => if s ≠ "" ∧ pyIsDigit s then some (Int.ofNat (digitsToNat s.data)) else none

/-- `set_env_variable` (lines 111-130) stores `str(value)`. -/
def envValue (v : Int) : Option String := some (toString v)

/-! ## Step 8: initial block-production status (lines 305-318) -/

/-- Lines 305-318: derive the initial `produce_block_status` from the two
persisted heights.  `OK` when both compare equal (Python `==` on
int-or-None), `ERROR` when they differ, `NO_DATA` when the produced height is
unset. -/
def step8Status (lp ls : Option Int) : String :=
  match lp with
  | some _ => if lp = ls then "OK" else "ERROR"
  | none => "NO_DATA"

/-! ## Step 9: quorum membership (lines 320-337) -/

/-- Lines 320-337: parse the `dump_consensus_state` query.  A failed or empty
query, or fewer than 67 reported lines, yields `in_quorum = None` and an empty
member list; otherwise each line is stripped of quotes, uppercased, and
membership of `pro_tx_hash` is tested. -/
def evalQuorum (pro_tx_hash : String) (query : Option String) : Option Bool × List String :=
  match query with
  | none => (none, [])
  | some s =>
    if s = "" then (none, [])
    else if (pySplitlines s).length < 67 then (none, [])
    else
      let lst := (pySplitlines s).map (fun v => pyUpper (pyStripQuotes v))
      (some (lst.contains pro_tx_hash), lst)

/-- Python `list.index`, returning `none` where Python raises `ValueError`
(first matching index otherwise). -/
def listIndex : List String → String → Option Nat
  | [], _ => none
  | x :: rest, v => if x = v then some 0 else (listIndex rest v).map (fun i => i + 1)

/-- Lines 353-365: `changing_quorum` is set when the latest block's proposer
is the last entry of the member list, or is absent from it (`ValueError`
branch). -/
def changingQuorumCalc (validators : List String) (latest_val : String) : Bool :=
  match listIndex validators latest_val with
  | none => true
  | some i => i == validators.length - 1

/-- Lines 339-346: `changed_quorum`.  The stored fingerprint is read through
`get_env_variable`, so it becomes an `int` only when it is all digits (and the
empty/absent cases give `None`).  Python evaluates
`previous and previous != current` as: `None` and `0` are falsy; for a nonzero
int the comparison `int != str` is always `True`. -/
def changedQuorumCalc (storedHash : Option String) : Bool :=
  match get_env_variable storedHash with
  | none => false
  | some n => if n = 0 then false else true

/-! ## Binary search (lines 409-445) -/

/-- Mutable state threaded through the search: the persisted settings plus the
two local height variables of `main`. -/
structure SearchSt where
  env : EnvStore
  lastProduced : Option Int
  lastShould : Option Int
deriving DecidableEq

/-- The `while left <= right` loop of lines 413-440, with a fuel argument for
structural recursion.  Each iteration probes `mid = (left + right) // 2`
(Python floor division), crashes with `AttributeError` if the probe query
returned `None` (line 419 calls `.upper()` unguarded), persists
`LAST_SHOULD_PRODUCE_BLOCK_HEIGHT = mid`, and either finds the validator
(persist `LAST_PRODUCED_BLOCK_HEIGHT = mid`, `found = true`, break) or narrows
the range by comparing the probed proposer with `pro_tx_hash`.  Returns the
final state, the `found_block` flag, and the list of probed heights in order. -/
def searchLoopFuel (proposerAt : Int → Option String) (pro_tx_hash : String) :
    Nat → Int → Int → SearchSt → Except String (SearchSt × Bool × List Int)
  | 0, _, _, st => Except.ok (st, false, [])
  | fuel + 1, left, right, st =>
    if left ≤ right then
      let mid := Int.fdiv (left + right) 2
      match proposerAt mid with
      | none => Except.error "AttributeError"
      | some rv0 =>
        let rv := pyUpper rv0
        let st1 : SearchSt := { st with
          env := { st.env with lastShould := envValue mid },
          lastShould := some mid }
        if rv = pro_tx_hash then
          Except.ok ({ st1 with
            env := { st1.env with lastProduced := envValue mid },
            lastProduced := some mid }, true, [mid])
        else if pyLt rv pro_tx_hash then
          match searchLoopFuel proposerAt pro_tx_hash fuel (mid + 1) right st1 with
          | Except.error e => Except.error e
          | Except.ok (st2, f, tr) => Except.ok (st2, f, mid :: tr)
        else
          match searchLoopFuel proposerAt pro_tx_hash fuel left (mid - 1) st1 with
          | Except.error e => Except.error e
          | Except.ok (st2, f, tr) => Except.ok (st2, f, mid :: tr)
    else Except.ok (st, false, [])

/-- The binary search of lines 409-445: run the loop with fuel equal to the
size of the closed range, which bounds the iteration count (the range loses at
least one element per iteration; `searchLoopFuel_fuel_irrelevant` below shows
any fuel at least this size gives the same result). -/
def searchLoop (proposerAt : Int → Option String) (pro_tx_hash : String)
    (left right : Int) (st : SearchSt) : Except String (SearchSt × Bool × List Int) :=
  searchLoopFuel proposerAt pro_tx_hash (right + 1 - left).toNat left right st

/-! ## The audit (lines 367-451) -/

/-- Result of the audit step: final persisted settings, final
`produce_block_status`, the two local height variables, the heights probed by
the binary search, and the values written to
`LAST_SHOULD_PRODUCE_BLOCK_HEIGHT` (in write order). -/
structure AuditOut where
  env : EnvStore
  status : String
  lastProduced : Option Int
  lastShould : Option Int
  probes : List Int
  shouldWrites : List Int
deriving DecidableEq

/-- Branches of lines 367-451 that leave state and status untouched. -/
def auditSkip (env : EnvStore) (status0 : String) (lp0 ls0 : Option Int) : AuditOut :=
  { env := env, status := status0, lastProduced := lp0, lastShould := ls0,
    probes := [], shouldWrites := [] }

/-- Python `x and x > bound` for an int-or-None `x` (line 398): `None` and `0`
are falsy. -/
def pyTruthyGt (v : Option Int) (bound : Int) : Bool :=
  match v with
  | some n => if n = 0 then false else decide (bound < n)
  | none => false

/-- Lines 367-451: the audit.  Runs only when `in_quorum` is `True`.  If the
latest proposer is the local validator, persist both heights as
`latest_height` and report `OK`.  Otherwise, when both quorum-change flags are
clear and the latest proposer sorts after the local validator, compute the
round-robin window, either take the fast path (persisted expected height
truthy and strictly above `search_start`) or run the binary search.  All other
branches change nothing. -/
def audit (pro_tx_hash latest_val : String) (latest_height : Int)
    (in_quorum : Option Bool) (changed_quorum changing_quorum : Bool)
    (validators : List String) (proposerAt : Int → Option String)
    (status0 : String) (lp0 ls0 : Option Int) (env : EnvStore) :
    Except String AuditOut :=
  if in_quorum = some true then
    if latest_val = pro_tx_hash then
      let env1 : EnvStore := { env with
        lastProduced := envValue latest_height, lastShould := envValue latest_height }
      Except.ok { env := env1, status := "OK",
                  lastProduced := get_env_variable env1.lastProduced,
                  lastShould := get_env_variable env1.lastShould,
                  probes := [], shouldWrites := [latest_height] }
    else if changed_quorum = false ∧ changing_quorum = false then
      if pyLt pro_tx_hash latest_val then
        match listIndex validators latest_val, listIndex validators pro_tx_hash with
        | some pIdx, some sIdx =>
          let search_start : Int := (latest_height - pIdx) + sIdx
          let search_end : Int := latest_height - 1
          let ls1 := get_env_variable env.lastShould
          if pyTruthyGt ls1 search_start then
            Except.ok { env := env, status := if lp0 = ls1 then "OK" else "ERROR",
                        lastProduced := lp0, lastShould := ls1,
                        probes := [], shouldWrites := [] }
          else
            match searchLoop proposerAt pro_tx_hash search_start search_end
                { env := env, lastProduced := lp0, lastShould := ls1 } with
            | Except.error e => Except.error e
            | Except.ok (st2, found, tr) =>
              Except.ok { env := st2.env, status := if found then "OK" else "ERROR",
                          lastProduced := st2.lastProduced, lastShould := st2.lastShould,
                          probes := tr, shouldWrites := tr }
        | _, _ => Except.error "ValueError"
      else Except.ok (auditSkip env status0 lp0 ls0)
    else Except.ok (auditSkip env status0 lp0 ls0)
  else Except.ok (auditSkip env status0 lp0 ls0)

/-! ## The monitored core of `main` (lines 298-451) -/

/-- Everything `main` derives in the modelled region. -/
structure CoreOut where
  in_quorum : Option Bool
  validators : List String
  changed_quorum : Bool
  changing_quorum : Bool
  current_hash : String
  status : String
  env : EnvStore
  lastProduced : Option Int
  lastShould : Option Int
  probes : List Int
  shouldWrites : List Int
deriving DecidableEq

/-- Lines 298-451 of `main`: fetch the latest block's proposer (crashing with
`AttributeError` when the query fails, line 302), derive the step-8 status,
evaluate quorum membership, compare and persist the quorum fingerprint,
compute `changing_quorum`, and run the audit.
`pro_tx_hash` is the local validator id, already uppercased (line 186);
`latestValQuery` and `activeValQuery` are the raw `run_command` results of
lines 298 and 322; `proposerAt` is the probe query of line 415 as a function
of the height. -/
def monitorCore (pro_tx_hash : String) (latest_block_height : Int)
    (latestValQuery activeValQuery : Option String)
    (proposerAt : Int → Option String) (env : EnvStore) :
    Except String CoreOut :=
  match latestValQuery with
  | none => Except.error "AttributeError"
  | some lv0 =>
    let latest_val := pyUpper lv0
    let lp0 := get_env_variable env.lastProduced
    let ls0 := get_env_variable env.lastShould
    let status0 := step8Status lp0 ls0
    let q := evalQuorum pro_tx_hash activeValQuery
    let current := compute_hash q.2
    let changed := changedQuorumCalc env.quorumHash
    let env1 : EnvStore := { env with quorumHash := some current }
    let changing := changingQuorumCalc q.2 latest_val
    match audit pro_tx_hash latest_val latest_block_height q.1 changed changing q.2
        proposerAt status0 lp0 ls0 env1 with
    | Except.error e => Except.error e
    | Except.ok a =>
      Except.ok { in_quorum := q.1, validators := q.2, changed_quorum := changed,
                  changing_quorum := changing, current_hash := current,
                  status := a.status, env := a.env, lastProduced := a.lastProduced,
                  lastShould := a.lastShould, probes := a.probes,
                  shouldWrites := a.shouldWrites }

deriving instance DecidableEq for Except

/-! ## Concrete inputs used by witnesses and counterexamples -/

/-- Raw stdout of the `dump_consensus_state | jq` pipeline for a given member
list: one double-quoted hash per line (trailing newline already stripped by
`run_command`). -/
def rawQuorum (xs : List String) : String :=
  String.intercalate "\n" (xs.map (fun s => "\"" ++ s ++ "\""))

/-- A 67-member quorum whose first five members are the `A`-`E` of the spec's
Scenario B, padded to the minimum size the code accepts. -/
def members67 : List String :=
  ["A", "B", "C", "D", "E"] ++ (List.range 62).map (fun i => "F" ++ toString i)

/-- First-run persisted state: all three settings absent. -/
def env0 : EnvStore := { lastProduced := none, lastShould := none, quorumHash := none }

/-! ## C1 -/

/-- The eight 512-bit blocks of the padded SHA-256 message for the
67-member quorum fingerprint (`pyRepr members67`), precomputed so that the
kernel verifies one compression block per lemma. -/
def m67B1 : List Nat :=
  [1529299239, 740304706, 657203239, 1126640672, 658777900, 539444519, 740304710, 807873568,
   658911527, 740304710, 841428000, 658912039, 740304710, 874982432, 658912551, 740304710]

def m67B2 : List Nat :=
  [908536864, 658913063, 740304710, 942091296, 658913575, 740304710, 825239340, 539444785,
   824650784, 658911538, 657203239, 1177629479, 740304710, 825501484, 539444785, 891759648]

def m67B3 : List Nat :=
  [658911542, 657203239, 1177630503, 740304710, 825763628, 539444785, 958868512, 658911792,
   657203239, 1177694503, 740304710, 842147628, 539444786, 858205216, 658911796, 657203239]

def m67B4 : List Nat :=
  [1177695527, 740304710, 842409772, 539444786, 925314080, 658911800, 657203239, 1177696551,
   740304710, 858793772, 539444787, 824650784, 658912050, 657203239, 1177760551, 740304710]

def m67B5 : List Nat :=
  [859055916, 539444787, 891759648, 658912054, 657203239, 1177761575, 740304710, 859318060,
   539444787, 958868512, 658912304, 657203239, 1177825575, 740304710, 875702060, 539444788]

def m67B6 : List Nat :=
  [858205216, 658912308, 657203239, 1177826599, 740304710, 875964204, 539444788, 925314080,
   658912312, 657203239, 1177827623, 740304710, 892348204, 539444789, 824650784, 658912562]

def m67B7 : List Nat :=
  [657203239, 1177891623, 740304710, 892610348, 539444789, 891759648, 658912566, 657203239,
   1177892647, 740304710, 892872492, 539444789, 958868512, 658912816, 657203239, 1177956647]

def m67B8 : List Nat :=
  [1568669696, 0, 0, 0, 0, 0, 0, 0,
   0, 0, 0, 0, 0, 0, 0, 3592]

/-- Intermediate SHA-256 chaining states after each block of the
67-member fingerprint computation. -/
def m67S1 : List Nat :=
  [3784205198, 3931118245, 3870706135, 4266822668, 462852545, 377755030, 1508194457, 3028161588]

def m67S2 : List Nat :=
  [211094362, 2041396273, 2322014697, 1508683175, 3175037531, 3032588358, 665217762, 3254164349]

def m67S3 : List Nat :=
  [4122980377, 2386951213, 715518604, 204555331, 514102381, 1984992657, 785689688, 3831483278]

def m67S4 : List Nat :=
  [1203201657, 2371121449, 3612186988, 1650814105, 783061034, 2464540940, 4070980888, 2532809942]

def m67S5 : List Nat :=
  [2389098602, 4090545155, 3156463859, 337951579, 2592346001, 1634299900, 3567882084, 684037264]

def m67S6 : List Nat :=
  [1467120785, 4137855985, 4018013349, 884821309, 2386287333, 2863505069, 3286134471, 3009920672]

def m67S7 : List Nat :=
  [952095708, 1319272064, 132386232, 2931070167, 3954811836, 334207588, 673838574, 2863597068]

def m67S8 : List Nat :=
  [3712015269, 423095877, 408390417, 297467334, 3749721540, 3193387361, 326333829, 1718009461]

/-! ## C2 -/

set_option maxRecDepth 16384 in
/-- C2, counterexample.  On the exact inputs of spec Scenario B — quorum
`[A,B,C,D,E]`, self `C`, latest proposer `E`, latest height 100, the chain
reporting proposer `C` at height 98, no persisted production history — the
code does not audit at all: the 5-member fetch falls below the 67-member
minimum, so `in_quorum = None`, no probe is issued, `lastProducedHeight`
stays unset and the status is `NO_DATA`, not `OK`. -/
theorem C2_scenarioB_counterexample :
    Except.map (fun o => (o.status, o.probes, o.lastProduced, o.in_quorum))
      (monitorCore "C" 100 (some "E") (some (rawQuorum ["A", "B", "C", "D", "E"]))
        (fun h => if h = 98 then some "C" else some "E") env0)
      = Except.ok ("NO_DATA", ([] : List Int), (none : Option Int), (none : Option Bool)) := by
  decide

set_option maxRecDepth 16384 in
/-- C2, amended: as Scenario B but with a quorum large enough to be accepted
(67 members, `A`-`E` first, so self `C` has index 2 and latest proposer `E`
index 4 and is not the last member): with latest height 100 the audit computes
`searchStart = 98`, `searchEnd = 99`, probes exactly height 98, finds `C`
there, sets `lastProducedHeight = 98` and returns `OK` — one probe, within the
claimed bound of two. -/
theorem C2_scenarioB_amended :
    Except.map (fun o => (o.status, o.probes, o.lastProduced, o.lastShould, o.in_quorum))
      (monitorCore "C" 100 (some "E") (some (rawQuorum members67))
        (fun h => if h = 98 then some "C" else some "E") env0)
      = Except.ok ("OK", [(98 : Int)], some (98 : Int), some (98 : Int), some true) := by
  decide

/-! ## C3 -/

set_option maxRecDepth 16384 in
/-- C3, counterexample.  `LAST_PRODUCED_BLOCK_HEIGHT` is unset, yet the
invocation issues a proposer-at-height query (height 98) and returns `OK`:
with the validator in a 67-member quorum, latest proposer `E` sorting after
self `C` and the quorum flags clear, the search branch runs regardless of the
missing production history, contradicting both the `NO_DATA` status and the
no-search requirement of the claim. -/
theorem C3_counterexample :
    Except.map (fun o => (o.status, o.probes, o.env.lastProduced))
      (monitorCore "C" 100 (some "E") (some (rawQuorum members67))
        (fun h => if h = 98 then some "C" else some "E")
        { lastProduced := none, lastShould := none, quorumHash := none })
      = Except.ok ("OK", [(98 : Int)], some "98") := by
  decide

/-! ## C4 -/

set_option maxRecDepth 16384 in
/-- C4, counterexample.  With self `C` (index 2), latest proposer `F0`
(index 5), latest height 100 and no prior expected height, the search window
is `[97, 99]`; probing 98 (`E`, above `C`) then 97 (`B`, below `C`) persists
`LAST_SHOULD_PRODUCE_BLOCK_HEIGHT = 98` and then `= 97` — consecutive
persisted values that strictly decrease within a single quorum-stable
invocation, refuting monotonicity. -/
theorem C4_counterexample :
    Except.map (fun o => o.shouldWrites)
      (monitorCore "C" 100 (some "F0") (some (rawQuorum members67))
        (fun h => if h = 98 then some "E" else some "B") env0)
      = Except.ok [(98 : Int), 97]
    ∧ ¬ List.Chain' (· ≤ ·) [(98 : Int), 97] := by
  constructor
  · decide
  · simp [List.chain'_cons]

/-! ## C5 -/

set_option maxRecDepth 16384 in
/-- C5: the latest-proposer query (line 298) returning `None` makes line 302
call `None.upper()`, raising an uncaught `AttributeError` — the invocation
crashes instead of treating the failure as unknown and deferring the audit. -/
theorem C5_latest_proposer_failure_crashes :
    monitorCore "C" 100 none (some (rawQuorum members67)) (fun _ => some "D") env0
      = Except.error "AttributeError" := by
  decide

/-! ## C6 -/

set_option maxRecDepth 16384 in
/-- C6, counterexample.  Boundary case `lastExpectedHeight = searchStart`:
self `C`, latest proposer `E`, height 100 gives `searchStart = 98`; with both
persisted heights equal to 98 the guard `last_should > search_start` (strict)
fails, so the code searches anyway — probing height 98 — and, not finding `C`
(the probe reports `D`), ends in `ERROR`, although the claim requires the
search to be skipped and equal heights to give `OK`. -/
theorem C6_boundary_counterexample :
    Except.map (fun o => (o.status, o.probes))
      (monitorCore "C" 100 (some "E") (some (rawQuorum members67))
        (fun _ => some "D")
        { lastProduced := some "98", lastShould := some "98", quorumHash := none })
      = Except.ok ("ERROR", [(98 : Int)]) := by
  decide

/-! ## C7 -/

/-- C7, counterexample.  A synthetic chain on `[0, 2]` where self `C` proposed
at exactly one height, `h = 0`, and the other heights were proposed by others
(`A` at 1, `E` at 2): the binary search probes 1 (`A < C`, go right) then 2
(`E > C`, go left) and exhausts without finding height 0 — it does not return
`mid = h`, and `lastProducedHeight` is never set. -/
theorem C7_counterexample :
    (searchLoop (fun k => if k = 0 then some "C" else if k = 1 then some "A" else some "E")
        "C" 0 2 { env := env0, lastProduced := none, lastShould := none }
      = Except.ok ({ env := { env0 with lastShould := some "2" },
                     lastProduced := none, lastShould := some 2 }, false, [(1 : Int), 2]))
    ∧ (fun k : Int => if k = 0 then some "C" else if k = 1 then some "A" else some "E") 0 = some "C"
    ∧ (fun k : Int => if k = 0 then some "C" else if k = 1 then some "A" else some "E") 1 = some "A"
    ∧ (fun k : Int => if k = 0 then some "C" else if k = 1 then some "A" else some "E") 2 = some "E" := by
  refine ⟨by decide, rfl, rfl, rfl⟩

/-! ## C10 -/

set_option maxRecDepth 16384 in
/-- C10, counterexample.  When the local validator is itself the last quorum
member and the latest proposer, `changing_quorum` is set, the search branch is
indeed skipped, but the production state is not left unchanged: the
just-produced branch runs first, persisting both heights and forcing `OK`
over the previously derived `NO_DATA`. -/
theorem C10_counterexample :
    Except.map (fun o => (o.changing_quorum, o.status, o.env.lastProduced, o.env.lastShould))
      (monitorCore "F61" 100 (some "F61") (some (rawQuorum members67)) (fun _ => some "D") env0)
      = Except.ok (true, "OK", some "100", some "100") := by
  decide

/-! ## Helper lemmas about the binary search -/

theorem fdiv2_char (a : Int) : 2 * Int.fdiv a 2 ≤ a ∧ a ≤ 2 * Int.fdiv a 2 + 1 := by
  rw [Int.fdiv_eq_ediv _ (by norm_num)]
  omega

theorem pyLtChars_irrefl : ∀ cs : List Char, pyLtChars cs cs = false := by
  intro cs
  induction cs with
  | nil => rfl
  | cons c t ih => simp [pyLtChars, ih]

theorem pyLt_irrefl (a : String) : pyLt a a = false := pyLtChars_irrefl a.data

/-- Any fuel at least the size of the closed range `[left, right]` makes
`searchLoopFuel` compute the same result: the embedded loop is
fuel-independent beyond that bound, so `searchLoop` (which passes exactly the
range size) computes what the unbounded Python loop computes. -/
theorem searchLoopFuel_fuel_irrelevant (p : Int → Option String) (s : String) :
    ∀ f g : Nat, ∀ l r : Int, ∀ st : SearchSt,
      (r + 1 - l).toNat ≤ f → (r + 1 - l).toNat ≤ g →
      searchLoopFuel p s f l r st = searchLoopFuel p s g l r st := by
  intro f
  induction f with
  | zero =>
    intro g l r st hf hg
    have hrl : ¬ l ≤ r := by omega
    cases g with
    | zero => rfl
    | succ g => simp [searchLoopFuel, if_neg hrl]
  | succ f ih =>
    intro g l r st hf hg
    cases g with
    | zero =>
      have hrl : ¬ l ≤ r := by omega
      simp [searchLoopFuel, if_neg hrl]
    | succ g =>
      by_cases hlr : l ≤ r
      · have hm := fdiv2_char (l + r)
        simp only [searchLoopFuel, if_pos hlr]
        cases hp : p (Int.fdiv (l + r) 2) with
        | none => rfl
        | some rv0 =>
          by_cases heq : pyUpper rv0 = s
          · simp [heq]
          · by_cases hlt : pyLt (pyUpper rv0) s
            · simp only [if_neg heq, if_pos hlt]
              rw [ih g (Int.fdiv (l + r) 2 + 1) r _ (by omega) (by omega)]
            · simp only [if_neg heq, if_neg hlt]
              rw [ih g l (Int.fdiv (l + r) 2 - 1) _ (by omega) (by omega)]
      · simp [searchLoopFuel, if_neg hlr]

/-- Every height probed (and hence every value persisted to
`LAST_SHOULD_PRODUCE_BLOCK_HEIGHT`) by the search loop lies at or above the
left end of the range. -/
theorem searchLoopFuel_writes_ge (p : Int → Option String) (s : String) :
    ∀ fuel : Nat, ∀ l r : Int, ∀ st st2 : SearchSt, ∀ fb : Bool, ∀ tr : List Int,
      searchLoopFuel p s fuel l r st = Except.ok (st2, fb, tr) →
      ∀ w ∈ tr, l ≤ w := by
  intro fuel
  induction fuel with
  | zero =>
    intro l r st st2 fb tr hok w hw
    simp only [searchLoopFuel, Except.ok.injEq, Prod.mk.injEq] at hok
    rw [← hok.2.2] at hw
    simp at hw
  | succ fuel ih =>
    intro l r st st2 fb tr hok w hw
    simp only [searchLoopFuel] at hok
    split at hok
    · rename_i hlr
      have hm := fdiv2_char (l + r)
      split at hok
      · simp at hok
      · rename_i rv0 hp
        split at hok
        · simp only [Except.ok.injEq, Prod.mk.injEq] at hok
          rw [← hok.2.2] at hw
          simp at hw
          omega
        · split at hok
          · split at hok
            · simp at hok
            · rename_i a b c hrec
              simp only [Except.ok.injEq, Prod.mk.injEq] at hok
              rw [← hok.2.2] at hw
              rcases List.mem_cons.mp hw with h1 | h2
              · omega
              · have := ih _ _ _ _ _ _ hrec w h2
                omega
          · split at hok
            · simp at hok
            · rename_i a b c hrec
              simp only [Except.ok.injEq, Prod.mk.injEq] at hok
              rw [← hok.2.2] at hw
              rcases List.mem_cons.mp hw with h1 | h2
              · omega
              · exact ih _ _ _ _ _ _ hrec w h2
    · simp only [Except.ok.injEq, Prod.mk.injEq] at hok
      rw [← hok.2.2] at hw
      simp at hw

/-- Core correctness and complexity of the embedded binary search: on a
window whose proposers are consistent with a round-robin rotation around the
unique height `h` proposed by `s` (below `h` they sort before `s`, above `h`
after it), the loop finds `h`, persists it, and probes at most `k + 1`
heights when the window size is at most `2 ^ k`. -/
theorem searchLoopFuel_finds (p : Int → Option String) (s : String) (h : Int) :
    ∀ k : Nat, ∀ fuel : Nat, ∀ l r : Int, ∀ st : SearchSt,
      (r + 1 - l).toNat ≤ fuel →
      (r + 1 - l).toNat ≤ 2 ^ k →
      l ≤ h → h ≤ r →
      (∀ j : Int, l ≤ j → j ≤ r →
        ∃ v, p j = some v ∧
          (j < h → pyLt (pyUpper v) s = true) ∧
          (j = h → pyUpper v = s) ∧
          (h < j → pyLt (pyUpper v) s = false ∧ pyUpper v ≠ s)) →
      ∃ st2 : SearchSt, ∃ tr : List Int,
        searchLoopFuel p s fuel l r st = Except.ok (st2, true, tr) ∧
        st2.lastProduced = some h ∧ st2.env.lastProduced = envValue h ∧
        tr.length ≤ k + 1 := by
  intro k
  induction k with
  | zero =>
    intro fuel l r st hfuel hsize hlh hhr hwin
    rw [pow_zero] at hsize
    have hlr : l = r := by omega
    have hm := fdiv2_char (l + r)
    have hmid : Int.fdiv (l + r) 2 = h := by omega
    cases fuel with
    | zero => omega
    | succ fuel =>
      obtain ⟨v, hpv, _, h2, _⟩ := hwin h hlh hhr
      have hc : l ≤ r := by omega
      simp only [searchLoopFuel, hc, hmid, hpv, h2 rfl, if_true, eq_self_iff_true, ite_true]
      exact ⟨_, _, rfl, rfl, rfl, by simp⟩
  | succ k ih =>
    intro fuel l r st hfuel hsize hlh hhr hwin
    cases fuel with
    | zero => omega
    | succ fuel =>
      have hc : l ≤ r := by omega
      have hm := fdiv2_char (l + r)
      have hsize2 : (r + 1 - l).toNat ≤ 2 * 2 ^ k := by
        rwa [pow_succ, Nat.mul_comm] at hsize
      obtain ⟨v, hpv, hv1, hv2, hv3⟩ := hwin (Int.fdiv (l + r) 2) (by omega) (by omega)
      rcases lt_trichotomy (Int.fdiv (l + r) 2) h with hlt | heq | hgt
      · have hlt1 : pyLt (pyUpper v) s = true := hv1 hlt
        have hne : pyUpper v ≠ s := by
          intro hcontra
          rw [hcontra, pyLt_irrefl] at hlt1
          exact Bool.false_ne_true hlt1
        obtain ⟨st2, tr, hokr, hlp, henv, hlen⟩ :=
          ih fuel (Int.fdiv (l + r) 2 + 1) r
            { st with
              env := { st.env with lastShould := envValue (Int.fdiv (l + r) 2) },
              lastShould := some (Int.fdiv (l + r) 2) }
            (by omega) (by omega) (by omega) hhr
            (fun j hj1 hj2 => hwin j (by omega) hj2)
        refine ⟨st2, Int.fdiv (l + r) 2 :: tr, ?_, hlp, henv, ?_⟩
        · simp only [searchLoopFuel, hc, if_true, hpv]
          rw [if_neg hne, if_pos hlt1, hokr]
        · simp only [List.length_cons]
          omega
      · have h2 := hv2 heq
        simp only [searchLoopFuel, hc, hpv, h2, if_true, eq_self_iff_true, ite_true]
        exact ⟨_, _, rfl, by simp [heq], by simp [heq], by simp⟩
      · obtain ⟨hltf, hne⟩ := hv3 hgt
        obtain ⟨st2, tr, hokr, hlp, henv, hlen⟩ :=
          ih fuel l (Int.fdiv (l + r) 2 - 1)
            { st with
              env := { st.env with lastShould := envValue (Int.fdiv (l + r) 2) },
              lastShould := some (Int.fdiv (l + r) 2) }
            (by omega) (by omega) hlh (by omega)
            (fun j hj1 hj2 => hwin j hj1 (by omega))
        refine ⟨st2, Int.fdiv (l + r) 2 :: tr, ?_, hlp, henv, ?_⟩
        · simp only [searchLoopFuel, hc, if_true, hpv]
          rw [if_neg hne, if_neg (by simp [hltf]), hokr]
        · simp only [List.length_cons]
          omega

/-- C7, amended: for every synthetic chain in which validator `self` proposed
at exactly one height `h` inside `[searchStart, searchEnd]` and the proposers
at the other heights are consistent with the round-robin rotation the search
relies on (heights below `h` have proposers sorting before `self`, heights
above it after `self`), the binary search terminates having found `h` —
persisting `lastProducedHeight = h`, from which the auditor reports OK — and
issues at most `ceil(log2(searchEnd - searchStart + 1)) + 1` proposer-at-height
probes. -/
theorem C7_amended_search_correct (p : Int → Option String) (s : String)
    (l r h : Int) (st : SearchSt)
    (hlh : l ≤ h) (hhr : h ≤ r)
    (hwin : ∀ j : Int, l ≤ j → j ≤ r → ∃ v, p j = some v ∧
        (j < h → pyLt (pyUpper v) s = true) ∧
        (j = h → pyUpper v = s) ∧
        (h < j → pyLt (pyUpper v) s = false ∧ pyUpper v ≠ s)) :
    ∃ st2 : SearchSt, ∃ tr : List Int,
      searchLoop p s l r st = Except.ok (st2, true, tr) ∧
      st2.lastProduced = some h ∧ st2.env.lastProduced = envValue h ∧
      tr.length ≤ Nat.clog 2 (r + 1 - l).toNat + 1 :=
  searchLoopFuel_finds p s h (Nat.clog 2 (r + 1 - l).toNat) (r + 1 - l).toNat l r st
    le_rfl (Nat.le_pow_clog (by norm_num) _) hlh hhr hwin

/-- C7, witness: on the one-height window `[5, 5]` whose proposer is `C`, the
search finds height 5 with one probe. -/
theorem C7_amended_search_correct_witness :
    ∃ st2 : SearchSt, ∃ tr : List Int,
      searchLoop (fun _ => some "C") "C" 5 5
          { env := env0, lastProduced := none, lastShould := none }
        = Except.ok (st2, true, tr) ∧
      st2.lastProduced = some 5 ∧ st2.env.lastProduced = envValue 5 ∧
      tr.length ≤ Nat.clog 2 ((5 : Int) + 1 - 5).toNat + 1 := by
  refine C7_amended_search_correct (fun _ => some "C") "C" 5 5 5
    { env := env0, lastProduced := none, lastShould := none }
    le_rfl le_rfl ?_
  intro j hj1 hj2
  refine ⟨"C", rfl, ?_, fun _ => rfl, ?_⟩
  · intro hcon
    omega
  · intro hcon
    omega

/-- C4, amended: within one invocation the auditor only persists
`LAST_SHOULD_PRODUCE_BLOCK_HEIGHT` values at or above the value persisted
before the invocation (when that value is set and nonzero), provided the
latest proposer is not the local validator: the search only runs when the
prior value is absent, zero, or at most `searchStart`, and every probed
height is at least `searchStart`.  (Consecutive writes within the search may
still decrease — see the counterexample.) -/
theorem C4_amended_writes_bounded_below (pro latest_val : String) (latest_height : Int)
    (in_quorum : Option Bool) (changed changing : Bool) (validators : List String)
    (p : Int → Option String) (status0 : String) (lp0 ls0 : Option Int) (env : EnvStore)
    (out : AuditOut) (n : Int)
    (hne : latest_val ≠ pro)
    (hok : audit pro latest_val latest_height in_quorum changed changing validators p
        status0 lp0 ls0 env = Except.ok out)
    (hn : get_env_variable env.lastShould = some n) (hn0 : n ≠ 0) :
    ∀ w ∈ out.shouldWrites, n ≤ w := by
  unfold audit at hok
  rw [if_neg hne, hn] at hok
  split at hok
  · split at hok
    · split at hok
      · split at hok
        · rename_i pIdx sIdx hpi hsi
          simp only [] at hok
          split at hok
          · simp only [Except.ok.injEq] at hok
            subst hok
            intro w hw
            simp at hw
          · rename_i hguard
            split at hok
            · simp at hok
            · rename_i st2 found tr hrec
              simp only [Except.ok.injEq] at hok
              subst hok
              intro w hw
              simp only at hw
              have hns : n ≤ (latest_height - pIdx) + sIdx := by
                simp [pyTruthyGt, hn0] at hguard
                omega
              have := searchLoopFuel_writes_ge p pro _ _ _ _ _ _ _ hrec w hw
              omega
        · simp at hok
      · simp only [Except.ok.injEq] at hok
        subst hok
        intro w hw
        simp [auditSkip] at hw
    · simp only [Except.ok.injEq] at hok
      subst hok
      intro w hw
      simp [auditSkip] at hw
  · simp only [Except.ok.injEq] at hok
    subst hok
    intro w hw
    simp [auditSkip] at hw

/-- C4, witness: with the expected height 90 persisted and `searchStart = 98`,
the search runs and its single persisted value, 98, is indeed at least 90. -/
theorem C4_amended_writes_bounded_below_witness :
    ("E" : String) ≠ "C"
    ∧ audit "C" "E" 100 (some true) false false ["A", "B", "C", "D", "E"]
        (fun h => if h = 98 then some "C" else some "E") "NO_DATA" none (some 90)
        { lastProduced := none, lastShould := some "90", quorumHash := none }
      = Except.ok { env := { lastProduced := some "98", lastShould := some "98", quorumHash := none },
                    status := "OK", lastProduced := some 98, lastShould := some 98,
                    probes := [98], shouldWrites := [98] }
    ∧ (90 : Int) ≤ 98 := by
  have hok : audit "C" "E" 100 (some true) false false ["A", "B", "C", "D", "E"]
      (fun h => if h = 98 then some "C" else some "E") "NO_DATA" none (some 90)
      { lastProduced := none, lastShould := some "90", quorumHash := none }
    = Except.ok { env := { lastProduced := some "98", lastShould := some "98", quorumHash := none },
                  status := "OK", lastProduced := some 98, lastShould := some 98,
                  probes := [98], shouldWrites := [98] } := by decide
  refine ⟨by decide, hok, ?_⟩
  exact C4_amended_writes_bounded_below "C" "E" 100 (some true) false false
    ["A", "B", "C", "D", "E"] (fun h => if h = 98 then some "C" else some "E")
    "NO_DATA" none (some 90) { lastProduced := none, lastShould := some "90", quorumHash := none }
    _ 90 (by decide) hok rfl (by decide) 98 (by simp)

/-- C6, amended: the fast path requires the persisted `lastExpectedHeight` to
be set, nonzero, and strictly greater than `searchStart` (the code tests
`last_should_produce_block_height > search_start` after a truthiness check);
then the search is skipped (no probe, state untouched) and the status is `OK`
exactly when `lastProducedHeight` equals the persisted `lastExpectedHeight`,
`ERROR` otherwise.  At equality with `searchStart` the search runs instead —
see the counterexample. -/
theorem C6_amended_fast_path (pro latest_val : String) (latest_height : Int)
    (validators : List String) (p : Int → Option String)
    (status0 : String) (lp0 ls0 : Option Int) (env : EnvStore)
    (pIdx sIdx : Nat) (n : Int)
    (hne : latest_val ≠ pro)
    (hlt : pyLt pro latest_val = true)
    (hpi : listIndex validators latest_val = some pIdx)
    (hsi : listIndex validators pro = some sIdx)
    (hn : get_env_variable env.lastShould = some n) (hn0 : n ≠ 0)
    (hgt : (latest_height - pIdx) + sIdx < n) :
    audit pro latest_val latest_height (some true) false false validators p
        status0 lp0 ls0 env
      = Except.ok { env := env, status := if lp0 = some n then "OK" else "ERROR",
                    lastProduced := lp0, lastShould := some n,
                    probes := [], shouldWrites := [] } := by
  unfold audit
  rw [if_neg hne, hn, hpi, hsi]
  have hguard : pyTruthyGt (some n) ((latest_height - pIdx) + sIdx) = true := by
    simp [pyTruthyGt, hn0]
    omega
  simp [hlt, hguard]

/-- C6, witness: persisted expected height 99 with `searchStart = 98`: the
fast path fires even though the probe function would fail every query, and
equal heights give `OK`. -/
theorem C6_amended_fast_path_witness :
    pyLt "C" "E" = true
    ∧ audit "C" "E" 100 (some true) false false ["A", "B", "C", "D", "E"]
        (fun _ => none) "OK" (some 99) (some 99)
        { lastProduced := some "99", lastShould := some "99", quorumHash := none }
      = Except.ok { env := { lastProduced := some "99", lastShould := some "99", quorumHash := none },
                    status := "OK", lastProduced := some 99, lastShould := some 99,
                    probes := [], shouldWrites := [] } := by
  refine ⟨by decide, ?_⟩
  have := C6_amended_fast_path "C" "E" 100 ["A", "B", "C", "D", "E"] (fun _ => none)
    "OK" (some 99) (some 99)
    { lastProduced := some "99", lastShould := some "99", quorumHash := none }
    4 2 99 (by decide) (by decide) (by decide) (by decide) rfl (by decide) (by decide)
  simpa using this

/-- C3, amended: when `LAST_PRODUCED_BLOCK_HEIGHT` is unset, the pre-audit
status is `NO_DATA`; if additionally the validator is not confirmed in the
quorum (membership false or unknown), no audit branch runs, so the invocation
issues no proposer-at-height query and reports `NO_DATA`.  When the validator
is in the quorum the audit may still run and override the status — see the
counterexample. -/
theorem C3_amended_no_data_when_no_audit (pro : String) (hgt : Int) (lv : String)
    (q : Option String) (p : Int → Option String) (env : EnvStore)
    (hlp : get_env_variable env.lastProduced = none)
    (hnq : (evalQuorum pro q).1 ≠ some true) :
    Except.map (fun o => (o.status, o.probes)) (monitorCore pro hgt (some lv) q p env)
      = Except.ok ("NO_DATA", []) := by
  simp only [monitorCore]
  rw [audit, if_neg hnq]
  simp [auditSkip, step8Status, hlp, Except.map]

/-- C3, witness: no persisted production history and a failed quorum fetch:
status `NO_DATA`, no probe. -/
theorem C3_amended_no_data_when_no_audit_witness :
    get_env_variable env0.lastProduced = none
    ∧ (evalQuorum "C" none).1 ≠ some true
    ∧ Except.map (fun o => (o.status, o.probes))
        (monitorCore "C" 100 (some "E") none (fun _ => some "D") env0)
      = Except.ok ("NO_DATA", []) :=
  ⟨rfl, by decide,
    C3_amended_no_data_when_no_audit "C" 100 "E" none (fun _ => some "D") env0 rfl (by decide)⟩

/-- C8: a failed quorum fetch (query returns `None` or empty output) or a
fetch reporting fewer than 67 lines yields the distinct third membership
value `None` (not `False`), and no audit runs that cycle: no probe is issued,
both persisted heights are untouched, and the status is exactly the pre-audit
step-8 status. -/
theorem C8_unknown_quorum_no_audit (pro : String) (hgt : Int) (lv : String)
    (q : Option String) (p : Int → Option String) (env : EnvStore)
    (hq : q = none ∨ ∃ s, q = some s ∧ ((pySplitlines s).length < 67 ∨ s = "")) :
    Except.map (fun o => (o.in_quorum, o.probes, o.env.lastProduced, o.env.lastShould, o.status))
        (monitorCore pro hgt (some lv) q p env)
      = Except.ok (none, [], env.lastProduced, env.lastShould,
          step8Status (get_env_variable env.lastProduced) (get_env_variable env.lastShould))
    ∧ (none : Option Bool) ≠ some false := by
  have hev : evalQuorum pro q = (none, []) := by
    rcases hq with rfl | ⟨s, rfl, hs⟩
    · rfl
    · rcases hs with hlen | rfl
      · by_cases hse : s = "" <;> simp [evalQuorum, hse, hlen]
      · rfl
  refine ⟨?_, by simp⟩
  simp only [monitorCore, hev]
  rw [audit, if_neg (by simp : ¬ ((none : Option Bool) = some true))]
  simp [auditSkip, Except.map]

/-- C8, witness: failed quorum fetch on a first run. -/
theorem C8_unknown_quorum_no_audit_witness :
    Except.map (fun o => (o.in_quorum, o.probes, o.env.lastProduced, o.env.lastShould, o.status))
        (monitorCore "C" 100 (some "E") none (fun _ => some "D") env0)
      = Except.ok (none, [], none, none, "NO_DATA")
    ∧ (none : Option Bool) ≠ some false := by
  have := C8_unknown_quorum_no_audit "C" 100 "E" none (fun _ => some "D") env0 (Or.inl rfl)
  simpa using this

/-- C9: when the validator is in the quorum and the latest block's proposer is
the validator itself, the audit persists both `lastProducedHeight` and
`lastExpectedHeight` as the latest height and reports `OK`, issuing no
proposer-at-height query. -/
theorem C9_just_produced_short_circuit (pro : String) (hgt : Int) (lv : String)
    (q : Option String) (p : Int → Option String) (env : EnvStore)
    (hin : (evalQuorum pro q).1 = some true)
    (hlv : pyUpper lv = pro) :
    Except.map (fun o => (o.status, o.probes, o.env.lastProduced, o.env.lastShould))
        (monitorCore pro hgt (some lv) q p env)
      = Except.ok ("OK", [], some (toString hgt), some (toString hgt)) := by
  simp only [monitorCore, hlv]
  rw [audit, if_pos hin, if_pos rfl]
  simp [envValue, Except.map]

set_option maxRecDepth 16384 in
/-- C9, witness: a 67-member quorum containing `C`, latest proposer `C`,
latest height 100: status `OK`, both heights persisted as `"100"`, no probe
(the probe function fails every query and is never consulted). -/
theorem C9_just_produced_short_circuit_witness :
    (evalQuorum "C" (some (rawQuorum members67))).1 = some true
    ∧ Except.map (fun o => (o.status, o.probes, o.env.lastProduced, o.env.lastShould))
        (monitorCore "C" 100 (some "C") (some (rawQuorum members67)) (fun _ => none) env0)
      = Except.ok ("OK", [], some "100", some "100") :=
  ⟨by decide,
    C9_just_produced_short_circuit "C" 100 "C" (some (rawQuorum members67))
      (fun _ => none) env0 (by decide) (by decide)⟩

/-- C10, amended: whenever the latest block's proposer differs from the local
validator and is either the last entry of the fetched member list or absent
from it, the whole audit is skipped — no probe is issued, both persisted
heights and the local height variables are untouched, and the status stays
the pre-audit step-8 status — regardless of the fingerprint comparison.  When
the latest proposer IS the local validator, the just-produced branch still
runs — see the counterexample. -/
theorem C10_amended_changing_quorum_skips (pro : String) (hgt : Int) (lv : String)
    (q : Option String) (p : Int → Option String) (env : EnvStore)
    (hne : pyUpper lv ≠ pro)
    (hch : changingQuorumCalc (evalQuorum pro q).2 (pyUpper lv) = true) :
    Except.map (fun o => (o.probes, o.env.lastProduced, o.env.lastShould, o.status,
        o.lastProduced, o.lastShould))
        (monitorCore pro hgt (some lv) q p env)
      = Except.ok ([], env.lastProduced, env.lastShould,
          step8Status (get_env_variable env.lastProduced) (get_env_variable env.lastShould),
          get_env_variable env.lastProduced, get_env_variable env.lastShould) := by
  simp only [monitorCore, hch]
  rw [audit, if_neg hne]
  by_cases hin : (evalQuorum pro q).1 = some true
  · rw [if_pos hin]
    simp [auditSkip, Except.map]
  · rw [if_neg hin]
    simp [auditSkip, Except.map]

set_option maxRecDepth 16384 in
/-- C10, witness: latest proposer `F61` is the last member of the 67-member
quorum and differs from self `C`: the audit is skipped entirely. -/
theorem C10_amended_changing_quorum_skips_witness :
    pyUpper "F61" ≠ "C"
    ∧ changingQuorumCalc (evalQuorum "C" (some (rawQuorum members67))).2 (pyUpper "F61") = true
    ∧ Except.map (fun o => (o.probes, o.env.lastProduced, o.env.lastShould, o.status,
        o.lastProduced, o.lastShould))
        (monitorCore "C" 100 (some "F61") (some (rawQuorum members67)) (fun _ => none) env0)
      = Except.ok ([], none, none, "NO_DATA", none, none) := by
  refine ⟨by decide, by decide, ?_⟩
  have := C10_amended_changing_quorum_skips "C" 100 "F61" (some (rawQuorum members67))
    (fun _ => none) env0 (by decide) (by decide)
  simpa using this

set_option maxRecDepth 16384 in
theorem m67_blocks_eq :
    toBlocks (toWords (shaPad (strBytes (pyRepr members67))))
      = [m67B1, m67B2, m67B3, m67B4, m67B5, m67B6, m67B7, m67B8] := by
  decide

theorem m67_step1 : shaBlock shaH0 m67B1 = m67S1 := by
  decide

theorem m67_step2 : shaBlock m67S1 m67B2 = m67S2 := by
  decide

theorem m67_step3 : shaBlock m67S2 m67B3 = m67S3 := by
  decide

theorem m67_step4 : shaBlock m67S3 m67B4 = m67S4 := by
  decide

theorem m67_step5 : shaBlock m67S4 m67B5 = m67S5 := by
  decide

theorem m67_step6 : shaBlock m67S5 m67B6 = m67S6 := by
  decide

theorem m67_step7 : shaBlock m67S6 m67B7 = m67S7 := by
  decide

theorem m67_step8 : shaBlock m67S7 m67B8 = m67S8 := by
  decide

/-- The fingerprint the previous invocation persisted for the 67-member
quorum (verified block by block). -/
theorem m67_hash :
    compute_hash members67
      = "dd40dba51937ee4518578b1111bafdc6df8035c4be573961137375856666be75" := by
  unfold compute_hash sha256hex sha256Words
  rw [m67_blocks_eq]
  simp only [List.foldl_cons, List.foldl_nil]
  rw [m67_step1, m67_step2, m67_step3, m67_step4, m67_step5, m67_step6, m67_step7, m67_step8]
  decide

set_option maxRecDepth 16384 in
/-- C1: the fingerprint comparison is broken.  The previous invocation saw the
67-member quorum and persisted its fingerprint (second conjunct computes that
digest).  The present invocation's quorum fetch fails, so the member list is
empty and its fingerprint (third conjunct) differs from the stored one (fourth
conjunct) — yet `changed_quorum` is `False`, because `get_env_variable` coerces
the stored value with `int(value) if value.isdigit() else None`, and any hex
digest containing a letter reads back as `None`, so the comparison at line 344
never fires.  The new fingerprint is still persisted unconditionally (first
conjunct). -/
theorem C1_fingerprint_comparison_bug :
    Except.map (fun o => (o.validators, o.changed_quorum, o.env.quorumHash))
        (monitorCore "C" 100 (some "B") none (fun _ => none)
          { lastProduced := none, lastShould := none,
            quorumHash := some "dd40dba51937ee4518578b1111bafdc6df8035c4be573961137375856666be75" })
      = Except.ok (([] : List String), false,
          some "4f53cda18c2baa0c0354bb5f9a3ecbe5ed12ab4d8e11ba873c2f11161202b945")
    ∧ compute_hash members67
        = "dd40dba51937ee4518578b1111bafdc6df8035c4be573961137375856666be75"
    ∧ compute_hash []
        = "4f53cda18c2baa0c0354bb5f9a3ecbe5ed12ab4d8e11ba873c2f11161202b945"
    ∧ ("4f53cda18c2baa0c0354bb5f9a3ecbe5ed12ab4d8e11ba873c2f11161202b945" : String)
        ≠ "dd40dba51937ee4518578b1111bafdc6df8035c4be573961137375856666be75" := by
  refine ⟨by decide, m67_hash, by decide, by decide⟩
